import Mathlib

/-!
Shallow embedding of the run-lifecycle / container-orchestration core of the
vein-based-iov-simulator repository, covering:

* `src/models/run.py` — the `Run` record and its `execute`, `get_status`
  (status synchronizer) and `cancel` operations;
* `src/worker/worker.py` — the task-container registry, `move_results`,
  the `run_simulation` container-executor task body and the
  `stop_simulation` stop task.

External collaborators (database session, Celery broker, Docker runtime,
filesystem) are modelled as explicit parameters: each fallible external call
is an `Except String _` value supplied by the environment, a raised Python
exception is `Except.error`, timestamps are abstract `Nat` ticks and
`datetime.now()` is a `now : Nat` parameter.  Log files are lists of the
distinctive message strings written by the code, with timestamps and the
static header lines elided.  Python truthiness of `task_id` (`if not
self.task_id`) is modelled as `Option.isNone`; task identifiers are
broker-generated UUIDs, never the empty string.
-/

namespace VeinsSim

/-- `RunStatus` from `src/models/run.py` (a `str` enum). -/
inductive RunStatus
  | pending
  | starting
  | running
  | success
  | failed
  | cancelling
  | cancelled
deriving DecidableEq, Repr

/-- The string value of each `RunStatus` member, as declared in the enum. -/
def statusValue : RunStatus → String
  | .pending => "pending"
  | .starting => "starting"
  | .running => "running"
  | .success => "success"
  | .failed => "failed"
  | .cancelling => "cancelling"
  | .cancelled => "cancelled"

/-- The `RunStatus(value)` constructor call: `some` on a declared enum value,
`none` where Python raises `ValueError`. -/
def runStatusOfString (s : String) : Option RunStatus :=
  if s = "pending" then some .pending
  else if s = "starting" then some .starting
  else if s = "running" then some .running
  else if s = "success" then some .success
  else if s = "failed" then some .failed
  else if s = "cancelling" then some .cancelling
  else if s = "cancelled" then some .cancelled
  else none

/-- The terminal-status list written in `Run.get_status`:
`[RunStatus.SUCCESS, RunStatus.FAILED, RunStatus.CANCELLED]`. -/
def terminal_statuses : List RunStatus := [.success, .failed, .cancelled]

/-- The persisted fields of the `Run` table row that the lifecycle operations
read and write (`src/models/run.py`).  `id`/`project_id`/`notes` and the
derived directory are irrelevant to the state machine and elided. -/
structure Run where
  task_id : Option String
  status : RunStatus
  start_time : Option Nat
  end_time : Option Nat
  use_gui : Bool
deriving DecidableEq, Repr

/-- A fresh `Run` row: field defaults from the model declaration
(`status` defaults to `PENDING`, `task_id`/timestamps default to `None`). -/
def newRun (gui : Bool) : Run :=
  { task_id := none, status := .pending, start_time := none, end_time := none, use_gui := gui }

/-! ### `Run.execute` (job dispatcher, `src/models/run.py` lines 124–166)

`_prepare_execution` (directory reset) and `celery_app.send_task` are the two
fallible external calls; they are passed in as `Except` outcomes.  The result
records the state of `self` after the call (mutations happen only after a
successful submission), the exception surfaced to the caller if any, and
whether the preparation / broker submission were attempted, and whether the
row was saved. -/

structure ExecResult where
  run : Run
  raised : Option String
  prepCalled : Bool
  sendTaskCalled : Bool
  saved : Bool
deriving DecidableEq, Repr

/-- `Run.execute`: no-op when `task_id` is already set; otherwise prepare the
working directory (propagating a filesystem error), submit the task
(propagating a broker error), and only then set `STARTING`, `start_time`,
clear `end_time`, record `task_id` and save. -/
def execute (r : Run) (prep : Except String Unit) (submit : Except String String)
    (now : Nat) : ExecResult :=
  if r.task_id.isSome then
    { run := r, raised := none, prepCalled := false, sendTaskCalled := false, saved := false }
  else
    match prep with
    | .error e =>
      { run := r, raised := some e, prepCalled := true, sendTaskCalled := false, saved := false }
    | .ok _ =>
      match submit with
      | .error e =>
        { run := r, raised := some e, prepCalled := true, sendTaskCalled := true, saved := false }
      | .ok taskId =>
        { run := { r with
                   status := .starting, start_time := some now, end_time := none,
                   task_id := some taskId },
          raised := none, prepCalled := true, sendTaskCalled := true, saved := true }

/-! ### `Run.get_status` (status synchronizer, `src/models/run.py` lines 168–210) -/

/-- The `task_result.info` payload of a `PROGRESS` task as `get_status` sees
it: either not a `dict`, or a `dict` whose `'status'` key is absent or holds
a string. -/
inductive TaskMeta
  | notDict
  | dict (statusVal : Option String)
deriving DecidableEq, Repr

/-- The Celery task state as reported by `AsyncResult(...).state`.
`otherState` covers states the code does not branch on (e.g. `'STARTED'`,
`'RETRY'`), which leave the run's status untouched. -/
inductive CeleryState
  | celPending
  | progress (m : TaskMeta)
  | celSuccess
  | celFailure
  | revoked
  | otherState (s : String)
deriving DecidableEq, Repr

/-- The terminal-mapping branch of `get_status`: set the mapped status and
set `end_time` only if it is not already set. -/
def setTerminal (r : Run) (s : RunStatus) (now : Nat) : Run :=
  { r with status := s, end_time := if r.end_time.isNone then some now else r.end_time }

/-- `Run.get_status`: returns the updated run and whether the broker was
queried.  A run with no `task_id` or already terminal is returned unchanged
without querying.  Celery `PENDING` maps to status `PENDING`; `PROGRESS`
trusts a well-formed `meta['status']` verbatim and otherwise (non-dict meta,
missing key, or `RunStatus(...)` raising `ValueError`, which the code
catches) falls back to `RUNNING`; `SUCCESS`/`REVOKED`/`FAILURE` map to the
terminal statuses, setting `end_time` if unset.  The function is total
because the only fallible region (`meta` inspection) is wrapped in
`try/except` by the code. -/
def get_status (r : Run) (st : CeleryState) (now : Nat) : Run × Bool :=
  if r.task_id.isNone || terminal_statuses.contains r.status then (r, false)
  else
    match st with
    | .celPending => ({ r with status := .pending }, true)
    | .progress m =>
      match m with
      | .dict (some s) =>
        match runStatusOfString s with
        | some v => ({ r with status := v }, true)
        | none => ({ r with status := .running }, true)
      | _ => ({ r with status := .running }, true)
    | .celSuccess => (setTerminal r .success now, true)
    | .celFailure => (setTerminal r .failed now, true)
    | .revoked => (setTerminal r .cancelled now, true)
    | .otherState _ => (r, true)

/-! ### `Run.cancel` (cancellation coordinator, `src/models/run.py` lines 212–245) -/

/-- The outcome of `stop_task.get(timeout=30)`: either a returned value
(`isDict` = whether it is a `dict`, `statusVal` = its `'status'` entry as a
serialized string, if any) or a raised exception (timeout, broker failure). -/
inductive StopOutcome
  | value (isDict : Bool) (statusVal : Option String)
  | raisedExc
deriving DecidableEq, Repr

structure CancelResult where
  run : Run
  raised : Option String
  stopTaskSent : Bool
deriving DecidableEq, Repr

/-- The `RuntimeError` message of `cancel`'s precondition check, which embeds
the current status. -/
def cancelErrMsg (s : RunStatus) : String :=
  "项目的状态是" ++ statusValue s ++ "，取消操作无效"

/-- `Run.cancel`: a run with no `task_id` is returned unchanged; a run not in
`STARTING`/`RUNNING` raises a `RuntimeError` naming the status; otherwise the
run is set to `CANCELLING` and saved, the stop task is sent, and then: a
`dict` result with `'status' == 'cancelled'` — or an exception while waiting
for the stop task — resolves the run to `CANCELLED` with `end_time` set,
while any other returned value leaves the run as saved (`CANCELLING`). -/
def cancel (r : Run) (stop : StopOutcome) (now : Nat) : CancelResult :=
  if r.task_id.isNone then
    { run := r, raised := none, stopTaskSent := false }
  else if !([RunStatus.starting, RunStatus.running].contains r.status) then
    { run := r, raised := some (cancelErrMsg r.status), stopTaskSent := false }
  else
    -- the run is first set to CANCELLING and saved, then — on confirmation
    -- or on an exception while waiting — overwritten to CANCELLED with
    -- `end_time`; the sequential mutation of `self` is inlined here
    match stop with
    | .value true (some s) =>
      if s = "cancelled" then
        { run := { r with status := .cancelled, end_time := some now },
          raised := none, stopTaskSent := true }
      else
        { run := { r with status := .cancelling }, raised := none, stopTaskSent := true }
    | .value _ _ =>
      { run := { r with status := .cancelling }, raised := none, stopTaskSent := true }
    | .raisedExc =>
      { run := { r with status := .cancelled, end_time := some now },
        raised := none, stopTaskSent := true }

/-! ## `src/worker/worker.py` -/

/-- The process-local `_task_container_mapping` dict, as an association list
(most recent binding first). -/
abbrev Registry := List (String × String)

/-- Removal of a key from the mapping (`dict.pop` / overwrite). -/
def regErase (tid : String) (reg : Registry) : Registry :=
  reg.filter (fun p => p.1 ≠ tid)

/-- `register_task_container`: insert, overwriting any stale prior entry. -/
def register_task_container (tid cid : String) (reg : Registry) : Registry :=
  (tid, cid) :: regErase tid reg

/-- `get_container_id`: `dict.get`, `none` when absent. -/
def get_container_id (tid : String) (reg : Registry) : Option String :=
  (reg.find? (fun p => p.1 == tid)).map (·.2)

/-- `unregister_task_container`: `dict.pop(task_id, None)` — returns the
prior value, if any, and the mapping without the key. -/
def unregister_task_container (tid : String) (reg : Registry) : Option String × Registry :=
  (get_container_id tid reg, regErase tid reg)

/-! ### `move_results` (`src/worker/worker.py` lines 77–97) -/

/-- The filesystem as `move_results` sees it: whether the scratch
`results_dir` exists, its immediate entries in listing order, the outcome of
`shutil.move` per entry (`some msg` when it raises), and whether the final
`shutil.rmtree` of the scratch directory succeeds. -/
structure MoveEnv where
  dirE : Bool
  entries : List String
  moveErr : String → Option String
  rmtreeOk : Bool

structure MoveResultsOut where
  moved : List String
  log : List String
  scratchRemoved : Bool
deriving DecidableEq, Repr

/-- The per-entry loop body of `move_results`, accumulating the moved-file
list and the log lines (log lines only when a log file was passed). -/
def moveStep (env : MoveEnv) (hasLog : Bool) (acc : List String × List String)
    (f : String) : List String × List String :=
  match env.moveErr f with
  | none => (acc.1 ++ [f], acc.2 ++ (if hasLog then ["  移动: " ++ f] else []))
  | some e => (acc.1, acc.2 ++ (if hasLog then ["  移动失败 " ++ f ++ ": " ++ e] else []))

/-- `move_results`: nothing happens when the scratch directory does not
exist; otherwise each listed entry is moved, a per-entry failure is logged
and the loop continues, then the scratch directory is removed with any
removal failure swallowed (`except Exception: pass`). -/
def move_results (env : MoveEnv) (hasLog : Bool) : MoveResultsOut :=
  if env.dirE then
    let start := (([] : List String), if hasLog then ["移动结果文件..."] else [])
    let acc := env.entries.foldl (moveStep env hasLog) start
    { moved := acc.1, log := acc.2, scratchRemoved := env.rmtreeOk }
  else
    { moved := [], log := [], scratchRemoved := false }

/-! ### `run_simulation` (`src/worker/worker.py` lines 99–312) -/

/-- The return value of the task body, the `dict` literals of
`run_simulation` (`status`, optional `error`, `exit_code`, `vnc_url`). -/
structure TaskOutcome where
  status : RunStatus
  error : Option String
  exit_code : Option Int
  vnc_url : Option String
deriving DecidableEq, Repr

/-- The external world of one `run_simulation` invocation.  Each fallible
call is an `Except` outcome: `os.makedirs(run_dir)` and the initial
`self.update_state` (both outside the `try` block), `open(log_path, 'w')`,
`client.containers.run`, and the mode's supervision phase (headless
stream-to-EOF plus `container.wait`, or the GUI poll loop) resolving to an
exit code.  `lastVncUrl` is the last display URL the GUI loop computed. -/
structure WorkerEnv where
  makedirsRes : Except String Unit
  updateStateRes : Except String Unit
  openLogRes : Except String Unit
  containerRunRes : Except String String
  superviseRes : Except String Int
  lastVncUrl : Option String
  moveEnv : MoveEnv

/-- The observable effect of one `run_simulation` invocation: the task's
result (`Except.error` = an exception escaped the task boundary), the final
registry, the log lines written, and the container the exception handler
attempted to stop, if any. -/
structure WorkerResult where
  result : Except String TaskOutcome
  registry : Registry
  log : List String
  cleanupStop : Option String

/-- The `except Exception` handler of `run_simulation` (lines 293–312):
unregister the task, append the exception text to the log (itself
best-effort), best-effort stop the container if one was created, and return
a `FAILED` outcome carrying the exception text. -/
def excHandler (tid : String) (e : String) (reg : Registry) (log : List String)
    (container : Option String) : WorkerResult :=
  { result := .ok { status := .failed, error := some e, exit_code := none, vnc_url := none },
    registry := (unregister_task_container tid reg).2,
    log := log ++ ["任务执行异常: " ++ e],
    cleanupStop := container }

/-- `run_simulation`: the container-executor task body.  GUI mode without a
`vnc_uuid` returns a `FAILED` outcome immediately.  `os.makedirs` and the
initial `update_state` run before the `try` block, so their exceptions
propagate (`Except.error`).  Inside the `try`: open the log, launch the
container, register `task_ref → container_id`, supervise to an exit code,
then in GUI mode capture logs, move scratch results, unregister and return
`SUCCESS`/`FAILED` by exit code with the last display URL; in headless mode
log the exit code, unregister, and on a nonzero code raise `RuntimeError`
(caught by the handler), otherwise move scratch results and return
`SUCCESS`.  Any exception inside the `try` goes through `excHandler`. -/
def run_simulation (tid : String) (guiMode : Bool) (vncUuid : Option String)
    (reg : Registry) (env : WorkerEnv) : WorkerResult :=
  if guiMode && vncUuid.isNone then
    { result := .ok { status := .failed, error := some "GUI模式下必须提供vnc_uuid参数",
                      exit_code := none, vnc_url := none },
      registry := reg, log := [], cleanupStop := none }
  else
    match env.makedirsRes with
    | .error e => { result := .error e, registry := reg, log := [], cleanupStop := none }
    | .ok _ =>
      match env.updateStateRes with
      | .error e => { result := .error e, registry := reg, log := [], cleanupStop := none }
      | .ok _ =>
        match env.openLogRes with
        | .error e => excHandler tid e reg [] none
        | .ok _ =>
          let log0 := ["仿真任务开始"]
          match env.containerRunRes with
          | .error e => excHandler tid e reg log0 none
          | .ok cid =>
            let log1 := log0 ++ ["容器启动成功"]
            let reg1 := register_task_container tid cid reg
            match env.superviseRes with
            | .error e => excHandler tid e reg1 log1 (some cid)
            | .ok exitCode =>
              if guiMode then
                let log2 := log1 ++ ["容器已退出，退出代码: " ++ toString exitCode]
                let mo := move_results env.moveEnv true
                let reg2 := (unregister_task_container tid reg1).2
                { result := .ok { status := if exitCode = 0 then .success else .failed,
                                  error := none, exit_code := some exitCode,
                                  vnc_url := env.lastVncUrl },
                  registry := reg2, log := log2 ++ mo.log, cleanupStop := none }
              else
                let log2 := log1 ++ ["容器执行完成，退出代码: " ++ toString exitCode]
                let reg2 := (unregister_task_container tid reg1).2
                if exitCode ≠ 0 then
                  excHandler tid ("仿真失败，退出代码: " ++ toString exitCode) reg2 log2 (some cid)
                else
                  let mo := move_results env.moveEnv true
                  { result := .ok { status := .success, error := none,
                                    exit_code := some exitCode, vnc_url := none },
                    registry := reg2, log := log2 ++ mo.log ++ ["无头模式仿真完成"],
                    cleanupStop := none }

/-- Whether a task result is a normal return, i.e. no exception escaped the
task boundary. -/
def resultOk : Except String TaskOutcome → Bool
  | .ok _ => true
  | .error _ => false

/-- Modelled from the spec: task broker contract (§6) — the broker reports a
task whose body returned normally as `success` (carrying its return value as
the result payload) and a task whose body raised as `failure`.  This is the
state `Run.get_status` subsequently observes for a finished task. -/
def celeryStateOf (res : Except String TaskOutcome) : CeleryState :=
  match res with
  | .ok _ => .celSuccess
  | .error _ => .celFailure

/-! ### `stop_simulation` (`src/worker/worker.py` lines 314–364) -/

/-- The Docker side of `stop_simulation` once a container id was found:
`client.containers.get` raising `DockerNotFound`, or a found container whose
`stop`/`remove` either succeeds or raises. -/
inductive DockerGet
  | notFound
  | found (stopRemoveErr : Option String)
deriving DecidableEq, Repr

/-- The `dict` returned by `stop_simulation`. -/
structure StopTaskReport where
  status : RunStatus
  message : Option String
  error : Option String
deriving DecidableEq, Repr

/-- `stop_simulation`: revoke the broker task (a revoke failure reports
`FAILED`), look up the container in the registry; with no mapping report
`CANCELLED`; with a mapping: a vanished container (`DockerNotFound`) or a
successful stop-and-remove unregisters and reports `CANCELLED`, while a
stop/remove failure reports `FAILED` and leaves the registry entry. -/
def stop_simulation (tid : String) (reg : Registry) (revokeErr : Option String)
    (dockerRes : DockerGet) : StopTaskReport × Registry :=
  match revokeErr with
  | some e => ({ status := .failed, message := none, error := some e }, reg)
  | none =>
    match get_container_id tid reg with
    | some _ =>
      match dockerRes with
      | .notFound =>
        ({ status := .cancelled, message := some "任务已停止，容器未找到", error := none },
         (unregister_task_container tid reg).2)
      | .found (some e) =>
        ({ status := .failed, message := none, error := some ("停止容器失败: " ++ e) }, reg)
      | .found none =>
        ({ status := .cancelled, message := some "任务和容器已成功停止", error := none },
         (unregister_task_container tid reg).2)
    | none =>
      ({ status := .cancelled, message := some "任务已停止，但未找到对应容器", error := none }, reg)

/-! ## Predicates and concrete fixtures used by the verification -/

/-- The data-model invariant `task_ref != null ⇒ status ≠ PENDING`. -/
def TaskRefInv (r : Run) : Prop := r.task_id.isSome = true → r.status ≠ .pending

/-- The invariant `status terminal ⇒ end_time set`. -/
def EndTimeInv (r : Run) : Prop :=
  terminal_statuses.contains r.status = true → r.end_time.isSome = true

/-- Broker states under which `get_status` preserves `TaskRefInv`: everything
except the queued state (mapped to `PENDING`) and an in-progress payload
carrying the literal status value `pending`. -/
def safeSyncState : CeleryState → Bool
  | .celPending => false
  | .progress (.dict (some s)) => s != "pending"
  | _ => true

/-- In-progress payload statuses actually published by `run_simulation`'s
`update_state` calls: `STARTING` (initial) and `RUNNING` (GUI poll loop). -/
def workerProgressMeta : CeleryState → Bool
  | .progress (.dict (some s)) => s == "starting" || s == "running"
  | _ => true

/-- Stop-task outcomes that `cancel` treats as confirmation: a `dict` result
with `'status' == 'cancelled'`, or an exception while waiting. -/
def stopConfirms : StopOutcome → Bool
  | .raisedExc => true
  | .value true (some s) => s == "cancelled"
  | .value _ _ => false

/-- A `PROGRESS` payload that is not a dict, lacks a `'status'` key, or
carries a value that is not a valid run status. -/
def malformedMeta (m : TaskMeta) : Prop :=
  m = .notDict ∨ m = .dict none ∨ ∃ s, m = .dict (some s) ∧ runStatusOfString s = none

/-- A benign scratch-results environment (no scratch directory). -/
def emptyMoveEnv : MoveEnv :=
  { dirE := false, entries := [], moveErr := fun _ => none, rmtreeOk := true }

/-- Environment of a dispatched headless run whose container starts fine and
exits with code 137: every external call succeeds. -/
def c1Env : WorkerEnv :=
  { makedirsRes := .ok (), updateStateRes := .ok (), openLogRes := .ok (),
    containerRunRes := .ok "container-1", superviseRes := .ok 137, lastVncUrl := none,
    moveEnv := emptyMoveEnv }

/-- The dispatched headless run the C1 scenario synchronizes. -/
def c1Run : Run :=
  { task_id := some "task-1", status := .running, start_time := some 0, end_time := none,
    use_gui := false }

def c2Run : Run :=
  { task_id := some "task-2", status := .running, start_time := some 0, end_time := none,
    use_gui := false }

def c3Run : Run :=
  { task_id := some "task-3", status := .starting, start_time := some 0, end_time := none,
    use_gui := false }

def c4Run : Run :=
  { task_id := none, status := .pending, start_time := none, end_time := none,
    use_gui := false }

/-- A run already in a terminal status with its `end_time` set. -/
def c6TermRun : Run :=
  { task_id := some "task-6", status := .failed, start_time := some 0, end_time := some 4,
    use_gui := false }

/-- Environment where the pre-`try` `os.makedirs(run_dir)` call raises. -/
def c7Env : WorkerEnv :=
  { makedirsRes := .error "makedirs: disk full", updateStateRes := .ok (), openLogRes := .ok (),
    containerRunRes := .ok "container-7", superviseRes := .ok 0, lastVncUrl := none,
    moveEnv := emptyMoveEnv }

def c10Env : MoveEnv :=
  { dirE := true, entries := ["a.vec", "b.sca", "c.vci"],
    moveErr := fun f => if f = "b.sca" then some "boom" else none, rmtreeOk := false }

end VeinsSim

/-! ## Theorems -/

namespace VeinsSim

/-! ### Helper lemmas -/

theorem get_container_id_regErase (tid : String) (reg : Registry) :
    get_container_id tid (regErase tid reg) = none := by
  simp only [get_container_id, regErase, Option.map_eq_none']
  rw [List.find?_eq_none]
  intro x hx
  rcases List.mem_filter.mp hx with ⟨-, hpx⟩
  simp only [decide_eq_true_eq] at hpx
  simp [hpx]

theorem moveStep_foldl_fst (env : MoveEnv) (hasLog : Bool) (l : List String)
    (acc : List String × List String) :
    (l.foldl (moveStep env hasLog) acc).1
      = acc.1 ++ l.filter (fun f => (env.moveErr f).isNone) := by
  induction l generalizing acc with
  | nil => simp
  | cons f t ih =>
    rw [List.foldl_cons, ih]
    unfold moveStep
    cases h : env.moveErr f <;> simp [h, List.filter_cons]

theorem moveStep_foldl_log_mono (env : MoveEnv) (hasLog : Bool) (l : List String)
    (acc : List String × List String) (x : String) (hx : x ∈ acc.2) :
    x ∈ (l.foldl (moveStep env hasLog) acc).2 := by
  induction l generalizing acc with
  | nil => exact hx
  | cons f t ih =>
    rw [List.foldl_cons]
    apply ih
    unfold moveStep
    cases env.moveErr f <;> simp [hx]

theorem moveStep_foldl_log_fail (env : MoveEnv) (l : List String)
    (acc : List String × List String) (f e : String)
    (hf : f ∈ l) (he : env.moveErr f = some e) :
    ("  移动失败 " ++ f ++ ": " ++ e) ∈ (l.foldl (moveStep env true) acc).2 := by
  induction l generalizing acc with
  | nil => cases hf
  | cons g t ih =>
    rw [List.foldl_cons]
    rcases List.mem_cons.mp hf with rfl | hmem
    · apply moveStep_foldl_log_mono
      unfold moveStep
      rw [he]
      simp
    · exact ih _ hmem

theorem runStatusOfString_eq_pending (s : String)
    (h : runStatusOfString s = some .pending) : s = "pending" := by
  unfold runStatusOfString at h
  split_ifs at h <;> simp_all

theorem isNone_eq_false_of_isSome {α : Type} (o : Option α) (h : o.isSome = true) :
    o.isNone = false := by
  cases o <;> simp_all

/-! ### Claim theorems -/

/-- C4 counterexample: a `PENDING` run that was never dispatched
(`task_id = None`) is returned unchanged by `cancel` with no exception at
all — the claimed precondition error is not raised. -/
theorem c4_cex_pending_without_task_ref :
    c4Run.status = .pending ∧
    (cancel c4Run .raisedExc 0).raised = none ∧
    (cancel c4Run .raisedExc 0).run = c4Run := by
  exact ⟨rfl, rfl, rfl⟩

/-- C4 amended: for a run whose `task_id` is set and whose status is
`PENDING` or terminal, `cancel` raises the precondition `RuntimeError`
naming the current status, leaves the run unchanged, and sends no stop
task; a run with `task_id` unset is returned unchanged without an error. -/
theorem c4_amended_precondition_error (r : Run) (stop : StopOutcome) (now : Nat)
    (ht : r.task_id.isSome = true)
    (hs : r.status = .pending ∨ r.status ∈ terminal_statuses) :
    (cancel r stop now).raised = some (cancelErrMsg r.status) ∧
    (cancel r stop now).run = r ∧
    (cancel r stop now).stopTaskSent = false := by
  have h1 : r.task_id.isNone = false := isNone_eq_false_of_isSome _ ht
  simp only [terminal_statuses, List.mem_cons, List.not_mem_nil, or_false] at hs
  rcases hs with h | h | h | h <;> simp [cancel, h1, h]

/-- C4 amended, witnessed on a `SUCCESS` run with a task reference. -/
theorem c4_amended_precondition_error_witness :
    (cancel { task_id := some "task-w4", status := .success, start_time := some 0,
              end_time := some 1, use_gui := false } .raisedExc 2).raised
      = some (cancelErrMsg .success) :=
  (c4_amended_precondition_error
    { task_id := some "task-w4", status := .success, start_time := some 0,
      end_time := some 1, use_gui := false } .raisedExc 2 rfl (by simp [terminal_statuses])).1

/-- C5: with `task_id` unset, a failure of `_prepare_execution` (filesystem
error) or of `celery_app.send_task` (broker error) surfaces to the caller as
that exception, nothing is saved, and the run's fields — status, `task_id`,
`start_time`, `end_time` — are all unchanged (so status stays `PENDING`
and `task_id` stays `None`). -/
theorem c5_execute_failure_no_partial_state (r : Run) (e e' : String)
    (submit : Except String String) (now now' : Nat)
    (ht : r.task_id = none) :
    (execute r (.error e) submit now).run = r ∧
    (execute r (.error e) submit now).raised = some e ∧
    (execute r (.error e) submit now).saved = false ∧
    (execute r (.error e) submit now).run.task_id = none ∧
    (execute r (.ok ()) (.error e') now').run = r ∧
    (execute r (.ok ()) (.error e') now').raised = some e' ∧
    (execute r (.ok ()) (.error e') now').saved = false ∧
    (execute r (.ok ()) (.error e') now').run.task_id = none := by
  simp [execute, ht]

/-- C5, witnessed on a fresh `PENDING` run with a filesystem error and a
broker error. -/
theorem c5_execute_failure_no_partial_state_witness :
    (execute (newRun false) (.error "io error") (.ok "t") 3).run = newRun false ∧
    (execute (newRun false) (.ok ()) (.error "broker down") 3).raised = some "broker down" :=
  ⟨(c5_execute_failure_no_partial_state (newRun false) "io error" "broker down"
      (.ok "t") 3 3 rfl).1,
   (c5_execute_failure_no_partial_state (newRun false) "io error" "broker down"
      (.ok "t") 3 3 rfl).2.2.2.2.2.1⟩

/-- C8: `execute` on a run whose `task_id` is already set is a no-op — the
run is returned unchanged with the same `task_id`, `_prepare_execution` is
not called and no task is submitted; consequently executing twice equals
executing once: after a successful `execute`, a second call is exactly such
a no-op. -/
theorem c8_execute_idempotent (r : Run) (t : String) (prep prep' : Except String Unit)
    (submit submit' : Except String String) (now now' : Nat)
    (ht : r.task_id = some t) :
    execute r prep submit now =
      { run := r, raised := none, prepCalled := false, sendTaskCalled := false,
        saved := false } ∧
    (execute r prep submit now).run.task_id = some t ∧
    (∀ r0 tid, r0.task_id = none →
      execute (execute r0 (.ok ()) (.ok tid) now).run prep' submit' now' =
        { run := (execute r0 (.ok ()) (.ok tid) now).run, raised := none,
          prepCalled := false, sendTaskCalled := false, saved := false }) := by
  refine ⟨by simp [execute, ht], by simp [execute, ht], ?_⟩
  intro r0 tid h0
  simp [execute, h0]

/-- C8, witnessed: a run with `task_id` set is returned untouched, and a
second `execute` after a successful first one changes nothing. -/
theorem c8_execute_idempotent_witness :
    execute { task_id := some "task-w8", status := .starting, start_time := some 0,
              end_time := none, use_gui := false } (.ok ()) (.ok "task-other") 5 =
      { run := { task_id := some "task-w8", status := .starting, start_time := some 0,
                 end_time := none, use_gui := false },
        raised := none, prepCalled := false, sendTaskCalled := false, saved := false } ∧
    execute (execute (newRun false) (.ok ()) (.ok "task-w8b") 5).run (.ok ()) (.ok "zz") 6 =
      { run := (execute (newRun false) (.ok ()) (.ok "task-w8b") 5).run, raised := none,
        prepCalled := false, sendTaskCalled := false, saved := false } :=
  ⟨(c8_execute_idempotent
      { task_id := some "task-w8", status := .starting, start_time := some 0,
        end_time := none, use_gui := false } "task-w8" (.ok ()) (.ok ())
      (.ok "task-other") (.ok "zz") 5 6 rfl).1,
   (c8_execute_idempotent
      { task_id := some "task-w8", status := .starting, start_time := some 0,
        end_time := none, use_gui := false } "task-w8" (.ok ()) (.ok ())
      (.ok "task-other") (.ok "zz") 5 6 rfl).2.2 (newRun false) "task-w8b" rfl⟩

/-- C9: for a run with `task_id` set and non-terminal status, an in-progress
broker report whose payload is not a dict, lacks a `'status'` key, or holds
an invalid status value makes the synchronizer fall back to `RUNNING`
(the `ValueError` from `RunStatus(...)` is caught): the result is the run
with status `RUNNING`, and the broker was queried.  The embedding of
`get_status` is a total function — the only fallible region is wrapped in
`try/except` by the code, so no exception escapes. -/
theorem c9_malformed_progress_meta (r : Run) (m : TaskMeta) (now : Nat)
    (ht : r.task_id.isSome = true)
    (hnt : terminal_statuses.contains r.status = false)
    (hm : malformedMeta m) :
    get_status r (.progress m) now = ({ r with status := .running }, true) := by
  have h1 : r.task_id.isNone = false := isNone_eq_false_of_isSome _ ht
  have hnt' : r.status ∉ terminal_statuses := by simpa using hnt
  rcases hm with h | h | ⟨s, h, hs⟩
  · subst h; simp [get_status, h1, hnt']
  · subst h; simp [get_status, h1, hnt']
  · subst h; simp [get_status, h1, hnt', hs]

/-- C9, witnessed with the payload `{'status': 'bogus'}`. -/
theorem c9_malformed_progress_meta_witness :
    get_status c3Run (.progress (.dict (some "bogus"))) 4
      = ({ c3Run with status := .running }, true) :=
  c9_malformed_progress_meta c3Run (.dict (some "bogus")) 4 rfl rfl
    (Or.inr (Or.inr ⟨"bogus", rfl, rfl⟩))

/-! Structural case analyses of `execute` and `cancel`, shared by the
invariant proofs. -/

theorem execute_run_cases (r : Run) (prep : Except String Unit)
    (submit : Except String String) (now : Nat) :
    (execute r prep submit now).run = r ∨
    ((execute r prep submit now).run.status = .starting ∧
      (execute r prep submit now).run.end_time = none) := by
  unfold execute
  split
  · exact Or.inl rfl
  · cases prep with
    | error e => exact Or.inl rfl
    | ok u =>
      cases submit with
      | error e => exact Or.inl rfl
      | ok tid => exact Or.inr ⟨rfl, rfl⟩

theorem cancel_run_cases (r : Run) (stop : StopOutcome) (now : Nat) :
    (cancel r stop now).run = r ∨
    ((cancel r stop now).run.status = .cancelling ∧
      (cancel r stop now).run.end_time = r.end_time) ∨
    ((cancel r stop now).run.status = .cancelled ∧
      (cancel r stop now).run.end_time = some now) := by
  by_cases h1 : r.task_id.isNone = true
  · left
    simp [cancel, h1]
  · by_cases hC : ¬r.status = RunStatus.starting ∧ ¬r.status = RunStatus.running
    · left
      simp [cancel, h1, hC]
    · cases stop with
      | raisedExc =>
        right; right
        constructor <;> simp [cancel, h1, hC]
      | value b sv =>
        cases b with
        | false =>
          right; left
          constructor <;> simp [cancel, h1, hC]
        | true =>
          cases sv with
          | none =>
            right; left
            constructor <;> simp [cancel, h1, hC]
          | some s =>
            by_cases hc : s = "cancelled"
            · right; right
              constructor <;> simp [cancel, h1, hC, hc]
            · right; left
              constructor <;> simp [cancel, h1, hC, hc]

/-- C2 counterexample: with a registered container whose stop raises, the
stop task reports `FAILED`, and `cancel` fed that reported outcome leaves
the run in the non-terminal status `CANCELLING` with no `end_time` — the
run does not resolve to `CANCELLED` as claimed. -/
theorem c2_cex_stop_failure_leaves_cancelling :
    (stop_simulation "task-2" [("task-2", "container-2")] none
        (.found (some "permission denied"))).1.status = .failed ∧
    (cancel c2Run
        (.value true (some (statusValue
          (stop_simulation "task-2" [("task-2", "container-2")] none
            (.found (some "permission denied"))).1.status))) 7).run.status
      = .cancelling ∧
    (cancel c2Run (.value true (some "failed")) 7).run.end_time = none ∧
    RunStatus.cancelling ≠ RunStatus.cancelled := by
  refine ⟨rfl, rfl, rfl, by decide⟩

/-- C2 amended: for a run with `task_id` set in `STARTING`/`RUNNING`,
`cancel` never raises and always sends the stop task; it resolves the run
to `CANCELLED` with `end_time` set exactly when the stop task's result is a
dict with status `'cancelled'` or waiting for the stop task raises; any
other reported outcome (e.g. a container-stop failure reported as `FAILED`)
leaves the run in `CANCELLING` with `end_time` unchanged. -/
theorem c2_amended_cancel_resolution (r : Run) (stop : StopOutcome) (now : Nat)
    (ht : r.task_id.isSome = true)
    (hs : r.status = .starting ∨ r.status = .running) :
    (cancel r stop now).raised = none ∧
    (cancel r stop now).stopTaskSent = true ∧
    (stopConfirms stop = true →
      (cancel r stop now).run.status = .cancelled ∧
      (cancel r stop now).run.end_time = some now) ∧
    (stopConfirms stop = false →
      (cancel r stop now).run.status = .cancelling ∧
      (cancel r stop now).run.end_time = r.end_time) := by
  have h1 : r.task_id.isNone = false := isNone_eq_false_of_isSome _ ht
  rcases hs with h | h <;>
  cases stop with
  | raisedExc => simp [cancel, stopConfirms, h1, h]
  | value b sv =>
    cases b with
    | false => simp [cancel, stopConfirms, h1, h]
    | true =>
      cases sv with
      | none => simp [cancel, stopConfirms, h1, h]
      | some s => by_cases hc : s = "cancelled" <;> simp [cancel, stopConfirms, h1, h, hc]

/-- C2 amended, witnessed: a confirming stop result resolves to `CANCELLED`;
a `FAILED` stop result leaves `CANCELLING`. -/
theorem c2_amended_cancel_resolution_witness :
    (cancel c2Run (.value true (some "cancelled")) 7).run.status = .cancelled ∧
    (cancel c2Run (.value true (some "failed")) 7).run.status = .cancelling :=
  ⟨((c2_amended_cancel_resolution c2Run (.value true (some "cancelled")) 7 rfl
      (Or.inr rfl)).2.2.1 (by decide)).1,
   ((c2_amended_cancel_resolution c2Run (.value true (some "failed")) 7 rfl
      (Or.inr rfl)).2.2.2 (by decide)).1⟩

/-- C3 counterexample: a dispatched run (`task_id` set, status `STARTING`)
whose task the broker still reports as queued is set to status `PENDING` by
the status synchronizer while keeping its task reference — violating the
claimed invariant for both headless and GUI runs. -/
theorem c3_cex_queued_sets_pending_with_task_ref :
    (get_status c3Run .celPending 3).1.task_id = some "task-3" ∧
    (get_status c3Run .celPending 3).1.status = .pending := by
  refine ⟨rfl, rfl⟩

/-- C3 amended: the invariant `task_ref set ⇒ status ≠ PENDING` is preserved
by `execute` and `cancel`, and by status synchronization for every broker
state except the queued state (which the code maps to `PENDING`) and an
in-progress payload carrying the literal status value `'pending'`. -/
theorem c3_amended_task_ref_invariant (r : Run) (st : CeleryState)
    (prep : Except String Unit) (submit : Except String String) (stop : StopOutcome)
    (now : Nat) (hinv : TaskRefInv r) :
    TaskRefInv (execute r prep submit now).run ∧
    TaskRefInv (cancel r stop now).run ∧
    (safeSyncState st = true → TaskRefInv (get_status r st now).1) := by
  refine ⟨?_, ?_, ?_⟩
  · rcases execute_run_cases r prep submit now with h | ⟨h, -⟩
    · rw [h]; exact hinv
    · intro _
      rw [h]
      decide
  · rcases cancel_run_cases r stop now with h | ⟨h, -⟩ | ⟨h, -⟩
    · rw [h]; exact hinv
    · intro _
      rw [h]
      decide
    · intro _
      rw [h]
      decide
  · intro hsafe
    unfold get_status
    split
    · exact hinv
    · cases st with
      | celPending => simp [safeSyncState] at hsafe
      | celSuccess => intro _; simp [setTerminal]
      | celFailure => intro _; simp [setTerminal]
      | revoked => intro _; simp [setTerminal]
      | otherState s => exact hinv
      | progress m =>
        cases m with
        | notDict => intro _; simp
        | dict sv =>
          cases sv with
          | none => intro _; simp
          | some s =>
            have hs' : s ≠ "pending" := by simpa [safeSyncState] using hsafe
            cases hrs : runStatusOfString s with
            | none => intro _; simp [hrs]
            | some v =>
              intro _
              simp only [hrs]
              intro hv
              exact hs' (runStatusOfString_eq_pending s (hv ▸ hrs))

/-- C3 amended, witnessed on a `STARTING` run observed in a broker terminal
state. -/
theorem c3_amended_task_ref_invariant_witness :
    TaskRefInv (get_status c3Run .celSuccess 3).1 :=
  (c3_amended_task_ref_invariant c3Run .celSuccess (.ok ()) (.ok "x") .raisedExc 3
    (fun _ => by decide)).2.2 rfl

/-! Helper facts about `EndTimeInv`. -/

theorem endTimeInv_of_nonterminal (x : Run)
    (h : terminal_statuses.contains x.status = false) : EndTimeInv x := by
  intro habs
  rw [h] at habs
  cases habs

theorem setTerminal_end_time_isSome (r : Run) (s : RunStatus) (now : Nat) :
    ((setTerminal r s now).end_time).isSome = true := by
  unfold setTerminal
  cases h : r.end_time <;> simp [h]

/-- C6: a run in a terminal status is returned unchanged by the status
synchronizer without querying the broker, and the invariant
`terminal status ⇒ end_time set` holds initially (fresh run) and is
preserved by the synchronizer (for the in-progress payload statuses the
worker actually publishes), by `execute` and by `cancel` — so terminal
states are final, carry an `end_time`, and undergo no further mutation. -/
theorem c6_terminal_finality (r : Run) (st : CeleryState) (now : Nat) :
    (terminal_statuses.contains r.status = true → get_status r st now = (r, false)) ∧
    (EndTimeInv r → workerProgressMeta st = true → EndTimeInv (get_status r st now).1) ∧
    (∀ prep submit, EndTimeInv r → EndTimeInv (execute r prep submit now).run) ∧
    (∀ stop, EndTimeInv r → EndTimeInv (cancel r stop now).run) ∧
    EndTimeInv (newRun r.use_gui) := by
  refine ⟨?_, ?_, ?_, ?_, ?_⟩
  · intro h
    have h' : r.status ∈ terminal_statuses := by simpa using h
    simp [get_status, h']
  · intro hinv hw
    unfold get_status
    split
    · exact hinv
    · cases st with
      | celPending => exact endTimeInv_of_nonterminal _ rfl
      | celSuccess => exact fun _ => setTerminal_end_time_isSome r .success now
      | celFailure => exact fun _ => setTerminal_end_time_isSome r .failed now
      | revoked => exact fun _ => setTerminal_end_time_isSome r .cancelled now
      | otherState s => exact hinv
      | progress m =>
        cases m with
        | notDict => exact endTimeInv_of_nonterminal _ rfl
        | dict sv =>
          cases sv with
          | none => exact endTimeInv_of_nonterminal _ rfl
          | some s =>
            have hw' : s = "starting" ∨ s = "running" := by
              simpa [workerProgressMeta] using hw
            rcases hw' with h | h <;> subst h
            · exact endTimeInv_of_nonterminal _ rfl
            · exact endTimeInv_of_nonterminal _ rfl
  · intro prep submit hinv
    rcases execute_run_cases r prep submit now with h | ⟨h, -⟩
    · rw [h]; exact hinv
    · intro habs
      rw [h] at habs
      cases habs
  · intro stop hinv
    rcases cancel_run_cases r stop now with h | ⟨h, he⟩ | ⟨h, he⟩
    · rw [h]; exact hinv
    · intro habs
      rw [h] at habs
      cases habs
    · intro _
      rw [he]
      rfl
  · exact endTimeInv_of_nonterminal _ rfl

/-- C6, witnessed: a `FAILED` run with `end_time` set is untouched by a
synchronizer call, and the invariant holds after a broker-success
synchronization of a `RUNNING` run. -/
theorem c6_terminal_finality_witness :
    get_status c6TermRun .celPending 9 = (c6TermRun, false) ∧
    EndTimeInv (get_status c2Run .celSuccess 9).1 :=
  ⟨(c6_terminal_finality c6TermRun .celPending 9).1 rfl,
   (c6_terminal_finality c2Run .celSuccess 9).2.1
     (endTimeInv_of_nonterminal _ rfl) rfl⟩

/-- C1 (code bug): a dispatched headless run whose container exits with
code 137.  The task body raises nothing past its boundary and the log
records the exit code — but because the caught `RuntimeError` makes the
task body RETURN a `FAILED` payload, the broker reports the task as having
succeeded, and the status synchronizer, which maps broker `SUCCESS` to run
status `SUCCESS` without inspecting the result payload, sets the run's
final status to `SUCCESS`, not `FAILED` as claimed. -/
theorem c1_headless_nonzero_exit_syncs_to_success :
    (run_simulation "task-1" false none [] c1Env).result =
      .ok { status := .failed, error := some "仿真失败，退出代码: 137",
            exit_code := none, vnc_url := none } ∧
    "容器执行完成，退出代码: 137" ∈ (run_simulation "task-1" false none [] c1Env).log ∧
    celeryStateOf (run_simulation "task-1" false none [] c1Env).result = .celSuccess ∧
    (get_status c1Run
        (celeryStateOf (run_simulation "task-1" false none [] c1Env).result) 9).1.status
      = .success ∧
    RunStatus.success ≠ RunStatus.failed := by
  refine ⟨rfl, by decide, rfl, rfl, by decide⟩

/-! Structural lemmas about `run_simulation`, shared by the C7 analysis. -/

theorem resultOk_iff (x : Except String TaskOutcome) :
    resultOk x = true ↔ ∃ out, x = .ok out := by
  cases x <;> simp [resultOk]

theorem run_simulation_no_raise (tid : String) (gui : Bool) (uuid : Option String)
    (reg : Registry) (env : WorkerEnv) (hmk : env.makedirsRes = .ok ())
    (hup : env.updateStateRes = .ok ()) :
    resultOk (run_simulation tid gui uuid reg env).result = true := by
  obtain ⟨mk, up, ol, cr, sv, url, menv⟩ := env
  have h1 : mk = Except.ok () := hmk
  have h2 : up = Except.ok () := hup
  subst h1 h2
  unfold run_simulation
  split
  · rfl
  · cases ol with
    | error e => rfl
    | ok u =>
      cases cr with
      | error e => rfl
      | ok cid =>
        cases sv with
        | error e => rfl
        | ok code =>
          cases gui with
          | true => rfl
          | false =>
            dsimp only []
            split
            · rfl
            · split
              · rfl
              · rfl

theorem run_simulation_registry_cleared (tid : String) (gui : Bool) (uuid : Option String)
    (reg : Registry) (env : WorkerEnv) (hreg : get_container_id tid reg = none) :
    get_container_id tid (run_simulation tid gui uuid reg env).registry = none := by
  obtain ⟨mk, up, ol, cr, sv, url, menv⟩ := env
  unfold run_simulation
  split
  · exact hreg
  · cases mk with
    | error e => exact hreg
    | ok u =>
      cases up with
      | error e => exact hreg
      | ok u' =>
        cases ol with
        | error e => exact get_container_id_regErase tid reg
        | ok u'' =>
          cases cr with
          | error e => exact get_container_id_regErase tid reg
          | ok cid =>
            cases sv with
            | error e =>
              exact get_container_id_regErase tid (register_task_container tid cid reg)
            | ok code =>
              cases gui with
              | true =>
                exact get_container_id_regErase tid (register_task_container tid cid reg)
              | false =>
                dsimp only []
                split
                · exact get_container_id_regErase tid (register_task_container tid cid reg)
                · split
                  · exact get_container_id_regErase tid
                      (regErase tid (register_task_container tid cid reg))
                  · exact get_container_id_regErase tid (register_task_container tid cid reg)

theorem run_simulation_openlog_error (tid : String) (gui : Bool) (uuid : Option String)
    (reg : Registry) (env : WorkerEnv) (e : String)
    (hmk : env.makedirsRes = .ok ()) (hup : env.updateStateRes = .ok ())
    (hol : env.openLogRes = .error e) (hg : (gui && uuid.isNone) = false) :
    (run_simulation tid gui uuid reg env).result =
      .ok { status := .failed, error := some e, exit_code := none, vnc_url := none } ∧
    (run_simulation tid gui uuid reg env).cleanupStop = none := by
  obtain ⟨mk, up, ol, cr, sv, url, menv⟩ := env
  have h1 : mk = Except.ok () := hmk
  have h2 : up = Except.ok () := hup
  have h3 : ol = Except.error e := hol
  subst h1 h2 h3
  unfold run_simulation
  rw [if_neg (by simp [hg])]
  exact ⟨rfl, rfl⟩

theorem run_simulation_supervise_error (tid : String) (gui : Bool) (uuid : Option String)
    (reg : Registry) (env : WorkerEnv) (e cid : String)
    (hmk : env.makedirsRes = .ok ()) (hup : env.updateStateRes = .ok ())
    (hol : env.openLogRes = .ok ()) (hcr : env.containerRunRes = .ok cid)
    (hsv : env.superviseRes = .error e) (hg : (gui && uuid.isNone) = false) :
    (run_simulation tid gui uuid reg env).result =
      .ok { status := .failed, error := some e, exit_code := none, vnc_url := none } ∧
    (run_simulation tid gui uuid reg env).cleanupStop = some cid := by
  obtain ⟨mk, up, ol, cr, sv, url, menv⟩ := env
  have h1 : mk = Except.ok () := hmk
  have h2 : up = Except.ok () := hup
  have h3 : ol = Except.ok () := hol
  have h4 : cr = Except.ok cid := hcr
  have h5 : sv = Except.error e := hsv
  subst h1 h2 h3 h4 h5
  unfold run_simulation
  rw [if_neg (by simp [hg])]
  exact ⟨rfl, rfl⟩

/-- C7 counterexample: the pre-`try` `os.makedirs(run_dir)` call is not
covered by the exception handler, so in an environment where it raises, the
exception escapes the task boundary (`Except.error`) — the task body is not
total at the boundary as claimed. -/
theorem c7_cex_makedirs_error_escapes :
    (run_simulation "task-7" false none [] c7Env).result = .error "makedirs: disk full" := rfl

/-- C7 amended: provided the two pre-`try` calls (`os.makedirs` and the
initial `update_state`) succeed and the registry holds no entry for the
task, the task body never raises past its boundary, the final registry
holds no entry for the task's identifier on every exit path, and any
exception inside the supervised region (log-file open; supervision after a
successful container launch) is caught and turned into a `FAILED` outcome
carrying the exception text, with the container best-effort stopped when
one was created. -/
theorem c7_amended_task_boundary (tid : String) (gui : Bool) (uuid : Option String)
    (reg : Registry) (env : WorkerEnv)
    (hmk : env.makedirsRes = .ok ()) (hup : env.updateStateRes = .ok ())
    (hreg : get_container_id tid reg = none) :
    (∃ out, (run_simulation tid gui uuid reg env).result = .ok out) ∧
    get_container_id tid (run_simulation tid gui uuid reg env).registry = none ∧
    (∀ e, env.openLogRes = .error e → (gui && uuid.isNone) = false →
      (run_simulation tid gui uuid reg env).result =
        .ok { status := .failed, error := some e, exit_code := none, vnc_url := none } ∧
      (run_simulation tid gui uuid reg env).cleanupStop = none) ∧
    (∀ e cid, env.openLogRes = .ok () → env.containerRunRes = .ok cid →
      env.superviseRes = .error e → (gui && uuid.isNone) = false →
      (run_simulation tid gui uuid reg env).result =
        .ok { status := .failed, error := some e, exit_code := none, vnc_url := none } ∧
      (run_simulation tid gui uuid reg env).cleanupStop = some cid) :=
  ⟨(resultOk_iff _).mp (run_simulation_no_raise tid gui uuid reg env hmk hup),
   run_simulation_registry_cleared tid gui uuid reg env hreg,
   fun e hol hg => run_simulation_openlog_error tid gui uuid reg env e hmk hup hol hg,
   fun e cid hol hcr hsv hg =>
     run_simulation_supervise_error tid gui uuid reg env e cid hmk hup hol hcr hsv hg⟩

/-- C7 amended, witnessed on a headless run in a fully healthy environment. -/
theorem c7_amended_task_boundary_witness :
    (∃ out, (run_simulation "task-w7" false none [] c1Env).result = .ok out) ∧
    get_container_id "task-w7" (run_simulation "task-w7" false none [] c1Env).registry = none :=
  ⟨(c7_amended_task_boundary "task-w7" false none [] c1Env rfl rfl rfl).1,
   (c7_amended_task_boundary "task-w7" false none [] c1Env rfl rfl rfl).2.1⟩

/-- C10: `move_results` (i) moves nothing and returns the empty list when
the scratch directory does not exist, (ii) returns exactly the entries whose
move succeeded, in order, (iii) records a failure line in the log for an
entry whose move raised while still processing the other entries, and
(iv) produces the same moved list and log whether or not the final removal
of the scratch directory succeeds (the removal failure is swallowed) — the
function is total by construction, matching the per-entry `try/except` and
the `try/except: pass` around `rmtree` in the code. -/
theorem c10_move_results_behavior :
    (∀ env hasLog, env.dirE = false →
      move_results env hasLog = { moved := [], log := [], scratchRemoved := false }) ∧
    (∀ env hasLog, env.dirE = true →
      (move_results env hasLog).moved
        = env.entries.filter (fun f => (env.moveErr f).isNone)) ∧
    (∀ env f e, env.dirE = true → f ∈ env.entries → env.moveErr f = some e →
      ("  移动失败 " ++ f ++ ": " ++ e) ∈ (move_results env true).log) ∧
    (∀ env hasLog b,
      (move_results { env with rmtreeOk := b } hasLog).moved
        = (move_results env hasLog).moved ∧
      (move_results { env with rmtreeOk := b } hasLog).log
        = (move_results env hasLog).log) := by
  refine ⟨?_, ?_, ?_, ?_⟩
  · intro env hasLog h
    simp [move_results, h]
  · intro env hasLog h
    simp [move_results, h, moveStep_foldl_fst]
  · intro env f e hd hf he
    have h := moveStep_foldl_log_fail env env.entries
      (([] : List String), ["移动结果文件..."]) f e hf he
    simpa [move_results, hd] using h
  · intro env hasLog b
    cases hd : env.dirE
    · constructor <;> simp [move_results, hd]
    · have hms : moveStep
          { dirE := true, entries := env.entries, moveErr := env.moveErr, rmtreeOk := b }
          hasLog = moveStep env hasLog := by
        funext acc f
        unfold moveStep
        rfl
      constructor <;> simp [move_results, hd, hms]

/-- C10, witnessed on a scratch directory with three entries of which the
second fails to move. -/
theorem c10_move_results_behavior_witness :
    (move_results c10Env true).moved = ["a.vec", "c.vci"] ∧
    ("  移动失败 b.sca: boom") ∈ (move_results c10Env true).log := by
  constructor
  · rw [c10_move_results_behavior.2.1 c10Env true rfl]
    decide
  · have h := c10_move_results_behavior.2.2.1 c10Env "b.sca" "boom" rfl (by decide) (by decide)
    simpa using h

end VeinsSim
